import Mathlib

/-!
Shallow embedding of the `rust_snake` engine (`src/lib.rs`).

The board is modelled as a total function `(Nat × Nat) → Nat` (row, column
indexing, matching ndarray's `(y, x)` order); cell decay uses truncated `Nat`
subtraction, which coincides with `u32::saturating_sub`.  The randomness
source is an explicit stream of naturals with a cursor; `gen_range lo hi`
consumes one draw and reduces it into `[lo, hi)`, mirroring `Rng::gen_range`.
The food-relocation loop in `random_food_pos` is a genuine unbounded search,
so it is embedded with explicit fuel; exhausting the fuel is reported as
`TickAbort.fuelOut`, while the `unimplemented!()` body of `snake_collided`
is reported as `TickAbort.selfCollision`.
-/

inductive Direction where
  | UP
  | DOWN
  | LEFT
  | RIGHT
deriving DecidableEq, Repr

/-- The randomness source: an infinite stream of naturals and a cursor
marking how many draws were consumed so far. -/
structure Rng where
  stream : Nat → Nat
  cursor : Nat

/-- Model of `rng.gen_range(lo, hi)`: consume one draw and reduce it into
the half-open range `[lo, hi)`. -/
def gen_range (rng : Rng) (lo hi : Nat) : Nat × Rng :=
  (lo + rng.stream rng.cursor % (hi - lo), { rng with cursor := rng.cursor + 1 })

/-- The game state of `SnakeGame<R>`.  `height`/`width` record the fixed
board shape (`board.len_of(Axis(0))`, `board.len_of(Axis(1))`); the board
itself is a total cell-value function. -/
structure SnakeGame where
  height : Nat
  width : Nat
  board : Nat × Nat → Nat
  food_pos : Nat × Nat
  snake_pos : Nat × Nat
  snake_dir : Option Direction
  snake_lvl : Nat
  rng : Rng

/-- `board_size`: `(height, width)`. -/
def board_size (g : SnakeGame) : Nat × Nat :=
  (g.height, g.width)

/-- `set_direction`: accept the requested direction unless it is the direct
opposite of the current one; with no current direction, accept anything. -/
def set_direction (g : SnakeGame) (dir : Direction) : SnakeGame :=
  match g.snake_dir with
  | some current_dir =>
    match dir with
    | .UP => if current_dir ≠ .DOWN then { g with snake_dir := some dir } else g
    | .DOWN => if current_dir ≠ .UP then { g with snake_dir := some dir } else g
    | .LEFT => if current_dir ≠ .RIGHT then { g with snake_dir := some dir } else g
    | .RIGHT => if current_dir ≠ .LEFT then { g with snake_dir := some dir } else g
  | none => { g with snake_dir := some dir }

/-- The direct opposite of a direction (UP↔DOWN, LEFT↔RIGHT). -/
def opposite : Direction → Direction
  | .UP => .DOWN
  | .DOWN => .UP
  | .LEFT => .RIGHT
  | .RIGHT => .LEFT

/-- `move_snake_head`: move one cell in `snake_dir` with wrap-around at the
board edges (`checked_sub(1).unwrap_or(size-1)` upward/leftward,
`Some(x+1).filter(< size).unwrap_or(0)` downward/rightward); no move when
the direction is still undetermined. -/
def move_snake_head (g : SnakeGame) : SnakeGame :=
  match g.snake_dir with
  | some .UP =>
    { g with snake_pos :=
        (if g.snake_pos.1 = 0 then g.height - 1 else g.snake_pos.1 - 1, g.snake_pos.2) }
  | some .DOWN =>
    { g with snake_pos :=
        (if g.snake_pos.1 + 1 < g.height then g.snake_pos.1 + 1 else 0, g.snake_pos.2) }
  | some .LEFT =>
    { g with snake_pos :=
        (g.snake_pos.1, if g.snake_pos.2 = 0 then g.width - 1 else g.snake_pos.2 - 1) }
  | some .RIGHT =>
    { g with snake_pos :=
        (g.snake_pos.1, if g.snake_pos.2 + 1 < g.width then g.snake_pos.2 + 1 else 0) }
  | none => g

/-- `random_pos`: one uniformly random in-bounds position, consuming two
draws (row first, then column). -/
def random_pos (g : SnakeGame) : (Nat × Nat) × Rng :=
  let yr := gen_range g.rng 0 g.height
  let xr := gen_range yr.2 0 g.width
  ((yr.1, xr.1), xr.2)

/-- Abort conditions of a tick: the `unimplemented!()` self-collision
handler, or exhaustion of the fuel bounding the food-relocation loop (the
source loops forever in that case). -/
inductive TickAbort where
  | selfCollision
  | fuelOut
deriving DecidableEq, Repr

/-- `random_food_pos`: rejection-sample positions until one with cell value
0 is found.  The source's `loop` is unbounded, so the embedding takes fuel;
`fuelOut` marks the runs on which the source would still be looping. -/
def random_food_pos : Nat → SnakeGame → Except TickAbort ((Nat × Nat) × Rng)
  | 0, _ => .error .fuelOut
  | fuel + 1, g =>
    let pr := random_pos g
    if g.board pr.1 = 0 then .ok pr
    else random_food_pos fuel { g with rng := pr.2 }

/-- `food_collided`: increment the growth level, then relocate the food via
`random_food_pos`. -/
def food_collided (fuel : Nat) (g : SnakeGame) : Except TickAbort SnakeGame :=
  let g1 := { g with snake_lvl := g.snake_lvl + 1 }
  match random_food_pos fuel g1 with
  | .error e => .error e
  | .ok pr => .ok { g1 with food_pos := pr.1, rng := pr.2 }

/-- `check_snake_collision`: if the head cell is nonzero and a direction is
set, run the (unimplemented, aborting) self-collision handler; otherwise if
the head is on the food, run the food-eaten handler. -/
def check_snake_collision (fuel : Nat) (g : SnakeGame) : Except TickAbort SnakeGame :=
  if g.board g.snake_pos ≠ 0 ∧ g.snake_dir.isSome then
    .error .selfCollision
  else if g.snake_pos = g.food_pos then
    food_collided fuel g
  else
    .ok g

/-- Step 1 of `tick`: optionally change direction. -/
def apply_input (input : Option Direction) (g : SnakeGame) : SnakeGame :=
  match input with
  | some d => set_direction g d
  | none => g

/-- Step 2 of `tick`: decay every cell by 1, floored at 0
(`x.saturating_sub(1)`, i.e. truncated `Nat` subtraction). -/
def decay_board (g : SnakeGame) : SnakeGame :=
  { g with board := fun p => g.board p - 1 }

/-- Step 5 of `tick`: write the growth level into the head cell. -/
def write_head (g : SnakeGame) : SnakeGame :=
  { g with board := fun p => if p = g.snake_pos then g.snake_lvl else g.board p }

/-- `tick`: the single state transition, mirroring the source statement by
statement: input, decay, move, collision check, head write. -/
def tick (fuel : Nat) (input : Option Direction) (g : SnakeGame) : Except TickAbort SnakeGame :=
  let g1 :=
    match input with
    | some d => set_direction g d
    | none => g
  let g2 := { g1 with board := fun p => g1.board p - 1 }
  let g3 := move_snake_head g2
  match check_snake_collision fuel g3 with
  | .error e => .error e
  | .ok g4 =>
    .ok { g4 with board := fun p => if p = g4.snake_pos then g4.snake_lvl else g4.board p }

/-- `SnakeGame::with_rng`: zero board, uniformly random food position (row
draw first), head at the centre, no direction, growth level as given, then
one seed tick with no input. -/
def with_rng (fuel : Nat) (board_width board_height : Nat) (starting_length : Nat)
    (rng : Rng) : Except TickAbort SnakeGame :=
  let yr := gen_range rng 0 board_height
  let xr := gen_range yr.2 0 board_width
  let game : SnakeGame :=
    { height := board_height
      width := board_width
      board := fun _ => 0
      food_pos := (yr.1, xr.1)
      snake_pos := (board_height / 2, board_width / 2)
      snake_dir := none
      snake_lvl := starting_length
      rng := xr.2 }
  tick fuel none game

/-- Run a sequence of ticks, stopping at the first abort. -/
def run (fuel : Nat) : List (Option Direction) → SnakeGame → Except TickAbort SnakeGame
  | [], g => .ok g
  | i :: rest, g =>
    match tick fuel i g with
    | .error e => .error e
    | .ok g1 => run fuel rest g1

/-- The position the food-relocation loop samples on its `k`-th iteration
(iteration `k` consumes the draws at cursor offsets `2k` and `2k+1`). -/
def food_sample (g : SnakeGame) (k : Nat) : Nat × Nat :=
  (g.rng.stream (g.rng.cursor + 2 * k) % g.height,
   g.rng.stream (g.rng.cursor + 2 * k + 1) % g.width)

/-- Project the success value of a tick result. -/
def ok_state : Except TickAbort SnakeGame → Option SnakeGame
  | .ok g => some g
  | .error _ => none

/-- The state a tick reaches just before its collision check: input applied,
board decayed, head moved. -/
def pre_collision_state (input : Option Direction) (g : SnakeGame) : SnakeGame :=
  move_snake_head (decay_board (apply_input input g))

/-- A concrete 7×7 game used by witnesses: empty board, head at the centre,
heading right. -/
def demo_game : SnakeGame :=
  ⟨7, 7, fun _ => 0, (0, 0), (3, 3), some .RIGHT, 3, ⟨fun _ => 0, 0⟩⟩

/-- The state `demo_game` reaches after one tick with input RIGHT. -/
def demo_game_after : SnakeGame :=
  ⟨7, 7, fun p => if p = (3, 4) then 3 else 0 - 1, (0, 0), (3, 4), some .RIGHT, 3,
    ⟨fun _ => 0, 0⟩⟩

/-- A concrete game whose head is about to run into a body cell. -/
def body_ahead_game : SnakeGame :=
  ⟨7, 7, fun p => if p = (3, 4) then 5 else 0, (0, 0), (3, 3), some .RIGHT, 3, ⟨fun _ => 0, 0⟩⟩

/-- A concrete game whose board is entirely occupied. -/
def wall_game : SnakeGame :=
  ⟨7, 7, fun _ => 1, (0, 0), (3, 3), some .RIGHT, 3, ⟨fun _ => 0, 0⟩⟩

/-- A randomness stream that always draws 3. -/
def const3_rng : Rng := ⟨fun _ => 3, 0⟩

/-- A randomness stream that always draws 0. -/
def const0_rng : Rng := ⟨fun _ => 0, 0⟩

/-- A randomness stream alternating 3, 4, 3, 4, …, so every sampled
position is `(3, 4)` on a 7×7 board. -/
def alt34_rng : Rng := ⟨fun k => if k % 2 = 0 then 3 else 4, 0⟩

/-- Expected state right after a 7×7 construction with starting length 3,
food at `q`, remaining stream `r`: only the head cell `(3,3)` holds 3. -/
def scenario_g0 (q : Nat × Nat) (r : Rng) : SnakeGame :=
  ⟨7, 7, fun p => if p = (3, 3) then 3 else 0 - 1, q, (3, 3), none, 3, r⟩

/-- Expected state after one further `tick RIGHT` from `scenario_g0`. -/
def scenario_g1 (q : Nat × Nat) (r : Rng) : SnakeGame :=
  ⟨7, 7, fun p => if p = (3, 4) then 3 else (if p = (3, 3) then 3 else 0 - 1) - 1, q, (3, 4),
    some .RIGHT, 3, r⟩

/-- Expected state after a second `tick RIGHT` from `scenario_g1`. -/
def scenario_g2 (q : Nat × Nat) (r : Rng) : SnakeGame :=
  ⟨7, 7,
    fun p =>
      if p = (3, 5) then 3
      else (if p = (3, 4) then 3 else (if p = (3, 3) then 3 else 0 - 1) - 1) - 1,
    q, (3, 5), some .RIGHT, 3, r⟩

/-! ## Structural lemmas -/

theorem set_direction_spec (g : SnakeGame) (d : Direction) :
    set_direction g d =
      { g with snake_dir :=
          match g.snake_dir with
          | none => some d
          | some c => if c = opposite d then some c else some d } := by
  obtain ⟨hh, ww, b, f, s, dir, lvl, r⟩ := g
  cases dir with
  | none => rfl
  | some c => cases c <;> cases d <;> rfl

theorem apply_input_board (input : Option Direction) (g : SnakeGame) :
    (apply_input input g).board = g.board := by
  cases input with
  | none => rfl
  | some d => rw [apply_input, set_direction_spec]

theorem apply_input_food_pos (input : Option Direction) (g : SnakeGame) :
    (apply_input input g).food_pos = g.food_pos := by
  cases input with
  | none => rfl
  | some d => rw [apply_input, set_direction_spec]

theorem apply_input_snake_lvl (input : Option Direction) (g : SnakeGame) :
    (apply_input input g).snake_lvl = g.snake_lvl := by
  cases input with
  | none => rfl
  | some d => rw [apply_input, set_direction_spec]

theorem move_snake_head_only_pos (g : SnakeGame) :
    (move_snake_head g).board = g.board ∧
    (move_snake_head g).food_pos = g.food_pos ∧
    (move_snake_head g).snake_lvl = g.snake_lvl ∧
    (move_snake_head g).snake_dir = g.snake_dir ∧
    (move_snake_head g).height = g.height ∧
    (move_snake_head g).width = g.width := by
  obtain ⟨hh, ww, b, f, s, dir, lvl, r⟩ := g
  cases dir with
  | none => exact ⟨rfl, rfl, rfl, rfl, rfl, rfl⟩
  | some c => cases c <;> exact ⟨rfl, rfl, rfl, rfl, rfl, rfl⟩

theorem tick_eq (fuel : Nat) (input : Option Direction) (g : SnakeGame) :
    tick fuel input g =
      Except.map write_head
        (check_snake_collision fuel (move_snake_head (decay_board (apply_input input g)))) := by
  cases input with
  | none =>
    dsimp only [tick, apply_input, decay_board, write_head]
    cases check_snake_collision fuel
        (move_snake_head { g with board := fun p => g.board p - 1 }) <;> rfl
  | some d =>
    dsimp only [tick, apply_input, decay_board, write_head]
    cases check_snake_collision fuel
        (move_snake_head
          { set_direction g d with board := fun p => (set_direction g d).board p - 1 }) <;> rfl

/-! ## Claim theorems -/

/-- C1: `tick` performs exactly, and in this order: (1) apply the optional
direction input via the turn rule, (2) decay every cell by 1 floored at 0,
(3) move the head (no move while the direction is undetermined), (4) the
collision check, (5) write the growth level into the (possibly moved) head
cell, overwriting the decayed value. -/
theorem tick_step_order (fuel : Nat) (input : Option Direction) (g : SnakeGame) :
    tick fuel input g =
      Except.map write_head
        (check_snake_collision fuel (move_snake_head (decay_board (apply_input input g)))) :=
  tick_eq fuel input g

/-- C2: with the head inside a `height×width` board, moving it in any
(possibly undetermined) direction wraps at the edges and lands inside the
board again: row in `[0, height)`, column in `[0, width)`. -/
theorem move_snake_head_in_bounds (g : SnakeGame)
    (hy : g.snake_pos.1 < g.height) (hx : g.snake_pos.2 < g.width) :
    (move_snake_head g).snake_pos.1 < g.height ∧
      (move_snake_head g).snake_pos.2 < g.width := by
  obtain ⟨hh, ww, b, f, ⟨sy, sx⟩, dir, lvl, r⟩ := g
  dsimp only at hy hx
  cases dir with
  | none => exact ⟨hy, hx⟩
  | some c =>
    cases c <;> dsimp only [move_snake_head] <;> constructor <;> (try split) <;> omega

/-- C2 witness: at a concrete in-bounds state the moved head is in bounds. -/
theorem move_snake_head_in_bounds_witness :
    (move_snake_head demo_game).snake_pos.1 < demo_game.height ∧
      (move_snake_head demo_game).snake_pos.2 < demo_game.width :=
  move_snake_head_in_bounds demo_game (by decide) (by decide)

/-- C3: the turn rule accepts any requested direction when none is stored
yet; once a direction `c` is stored, a requested direction `d` is rejected
(state unchanged) exactly when `c` is the direct opposite of `d`, and
accepted otherwise. -/
theorem set_direction_turn_rule (g : SnakeGame) (d : Direction) :
    (g.snake_dir = none → (set_direction g d).snake_dir = some d) ∧
      (∀ c, g.snake_dir = some c →
        (set_direction g d).snake_dir = if c = opposite d then some c else some d) := by
  constructor
  · intro h
    rw [set_direction_spec, h]
  · intro c h
    rw [set_direction_spec, h]

/-- C3 witness: with RIGHT stored, LEFT (its opposite) is rejected. -/
theorem set_direction_turn_rule_witness :
    (set_direction demo_game .LEFT).snake_dir =
      if Direction.RIGHT = opposite .LEFT then some Direction.RIGHT else some Direction.LEFT :=
  (set_direction_turn_rule demo_game .LEFT).2 .RIGHT rfl

theorem random_food_pos_zero (fuel : Nat) (g : SnakeGame) (pr : (Nat × Nat) × Rng)
    (h : random_food_pos fuel g = .ok pr) : g.board pr.1 = 0 := by
  induction fuel generalizing g pr with
  | zero => exact absurd h (by simp [random_food_pos])
  | succ n ih =>
    simp only [random_food_pos] at h
    split at h
    next hb => cases h; exact hb
    next hb =>
      have := ih { g with rng := (random_pos g).2 } pr h
      exact this

theorem random_food_pos_no_selfcol (fuel : Nat) (g : SnakeGame) :
    random_food_pos fuel g ≠ .error .selfCollision := by
  induction fuel generalizing g with
  | zero => simp [random_food_pos]
  | succ n ih =>
    simp only [random_food_pos]
    split
    · simp
    · exact ih _

theorem food_collided_error (fuel : Nat) (g : SnakeGame) (e : TickAbort)
    (h : food_collided fuel g = .error e) :
    random_food_pos fuel { g with snake_lvl := g.snake_lvl + 1 } = .error e := by
  simp only [food_collided] at h
  split at h
  next heq => cases h; exact heq
  next heq => simp at h

theorem food_collided_no_selfcol (fuel : Nat) (g : SnakeGame) :
    food_collided fuel g ≠ .error .selfCollision := by
  intro hcontra
  exact random_food_pos_no_selfcol fuel _ (food_collided_error fuel g _ hcontra)

/-- C4: whenever a tick completes, the growth level is unchanged (and the
food stays put) if the moved head did not land on the food, and increases
by exactly 1 if it did, in which case the new food position is a cell whose
decayed board value was 0 at the time of relocation. -/
theorem tick_growth (fuel : Nat) (input : Option Direction) (g g' : SnakeGame)
    (h : tick fuel input g = .ok g') :
    (g'.snake_pos ≠ g.food_pos → g'.snake_lvl = g.snake_lvl ∧ g'.food_pos = g.food_pos) ∧
      (g'.snake_pos = g.food_pos →
        g'.snake_lvl = g.snake_lvl + 1 ∧ g.board g'.food_pos - 1 = 0) := by
  rw [tick_eq] at h
  have hfood3 : (move_snake_head (decay_board (apply_input input g))).food_pos = g.food_pos := by
    rw [(move_snake_head_only_pos _).2.1]
    exact apply_input_food_pos input g
  have hlvl3 : (move_snake_head (decay_board (apply_input input g))).snake_lvl = g.snake_lvl := by
    rw [(move_snake_head_only_pos _).2.2.1]
    exact apply_input_snake_lvl input g
  have hboard3 :
      (move_snake_head (decay_board (apply_input input g))).board = fun p => g.board p - 1 := by
    rw [(move_snake_head_only_pos _).1]
    show (fun p => (apply_input input g).board p - 1) = _
    rw [apply_input_board]
  generalize hg3 : move_snake_head (decay_board (apply_input input g)) = g3
      at h hfood3 hlvl3 hboard3
  unfold check_snake_collision at h
  split at h
  · simp [Except.map] at h
  · split at h
    next hfood =>
      simp only [food_collided] at h
      split at h
      next e heq => simp [Except.map] at h
      next pr heq =>
        simp only [Except.map] at h
        cases h
        have hz : g3.board pr.1 = 0 :=
          random_food_pos_zero _ { g3 with snake_lvl := g3.snake_lvl + 1 } _ heq
        dsimp only [write_head]
        constructor
        · intro hne
          exact absurd (hfood.trans hfood3) hne
        · intro _
          refine ⟨by rw [hlvl3], ?_⟩
          have hz' : (fun p => g.board p - 1) pr.1 = 0 := hboard3 ▸ hz
          simpa using hz'
    next hfood =>
      simp only [Except.map] at h
      cases h
      dsimp only [write_head]
      constructor
      · intro _
        exact ⟨hlvl3, hfood3⟩
      · intro heq
        exact absurd (heq.trans hfood3.symm) hfood

/-- C4 witness: a concrete completed tick away from the food leaves level
and food position unchanged. -/
theorem tick_growth_witness :
    (demo_game_after.snake_pos ≠ demo_game.food_pos →
        demo_game_after.snake_lvl = demo_game.snake_lvl ∧
          demo_game_after.food_pos = demo_game.food_pos) ∧
      (demo_game_after.snake_pos = demo_game.food_pos →
        demo_game_after.snake_lvl = demo_game.snake_lvl + 1 ∧
          demo_game.board demo_game_after.food_pos - 1 = 0) :=
  tick_growth 1 (some .RIGHT) demo_game demo_game_after rfl

/-- C5: a tick aborts through the unimplemented self-collision handler
exactly when, after the input/decay/move steps, the destination cell is
still nonzero and a direction has been set; under the negation of that
condition the abort branch is unreachable. -/
theorem tick_self_collision (fuel : Nat) (input : Option Direction) (g : SnakeGame) :
    ((pre_collision_state input g).board (pre_collision_state input g).snake_pos ≠ 0 ∧
        (pre_collision_state input g).snake_dir.isSome = true) ↔
      tick fuel input g = .error .selfCollision := by
  rw [tick_eq]
  unfold pre_collision_state
  generalize move_snake_head (decay_board (apply_input input g)) = g3
  unfold check_snake_collision
  by_cases hc : g3.board g3.snake_pos ≠ 0 ∧ g3.snake_dir.isSome = true
  · rw [if_pos hc]
    exact ⟨fun _ => rfl, fun _ => hc⟩
  · rw [if_neg hc]
    constructor
    · intro h
      exact absurd h hc
    · intro h
      exfalso
      split at h
      · cases hfc : food_collided fuel g3 with
        | error e =>
          rw [hfc] at h
          cases h
          exact food_collided_no_selfcol fuel g3 hfc
        | ok gx => rw [hfc] at h; simp [Except.map] at h
      · simp [Except.map] at h

/-- C5 witness: heading RIGHT into a still-nonzero cell aborts the tick via
the self-collision handler. -/
theorem tick_self_collision_witness :
    tick 0 none body_ahead_game = .error .selfCollision :=
  (tick_self_collision 0 none body_ahead_game).mp (by decide)

theorem random_pos_eq (g : SnakeGame) :
    random_pos g = (food_sample g 0, ⟨g.rng.stream, g.rng.cursor + 1 + 1⟩) := by
  dsimp only [random_pos, gen_range, food_sample]
  simp

theorem random_food_pos_full_aux (fuel : Nat) (g : SnakeGame)
    (hh : 0 < g.height) (hw : 0 < g.width)
    (hfull : ∀ p : Nat × Nat, p.1 < g.height → p.2 < g.width → g.board p ≠ 0) :
    random_food_pos fuel g = .error .fuelOut := by
  induction fuel generalizing g with
  | zero => rfl
  | succ n ih =>
    simp only [random_food_pos]
    rw [if_neg]
    · exact ih { g with rng := (random_pos g).2 } hh hw hfull
    · rw [random_pos_eq]
      exact hfull (food_sample g 0) (Nat.mod_lt _ hh) (Nat.mod_lt _ hw)

theorem random_food_pos_finds_aux (k : Nat) (g : SnakeGame)
    (hk : g.board (food_sample g k) = 0) :
    ∃ pr, random_food_pos (k + 1) g = .ok pr := by
  induction k generalizing g with
  | zero =>
    refine ⟨random_pos g, ?_⟩
    simp only [random_food_pos]
    rw [if_pos (by rw [random_pos_eq]; exact hk)]
  | succ n ih =>
    by_cases h0 : g.board (random_pos g).1 = 0
    · refine ⟨random_pos g, ?_⟩
      simp only [random_food_pos]
      rw [if_pos h0]
    · have hshift :
          ({ g with rng := (random_pos g).2 } : SnakeGame).board
            (food_sample { g with rng := (random_pos g).2 } n) = 0 := by
        have e1 : g.rng.cursor + 1 + 1 + 2 * n = g.rng.cursor + 2 * (n + 1) := by omega
        dsimp only [food_sample, random_pos, gen_range]
        rw [e1]
        exact hk
      obtain ⟨pr, hpr⟩ := ih { g with rng := (random_pos g).2 } hshift
      refine ⟨pr, ?_⟩
      simp only [random_food_pos]
      rw [if_neg h0]
      exact hpr

/-- C6: on a board with positive dimensions, if every in-bounds cell is
nonzero (the board is entirely occupied) the food-relocation loop never
terminates — it exhausts any amount of fuel; conversely, whenever the
randomness stream eventually samples a zero-valued cell, the loop
terminates successfully with some finite fuel. -/
theorem random_food_pos_termination (g : SnakeGame) (hh : 0 < g.height) (hw : 0 < g.width) :
    ((∀ p : Nat × Nat, p.1 < g.height → p.2 < g.width → g.board p ≠ 0) →
        ∀ fuel, random_food_pos fuel g = .error .fuelOut) ∧
      ((∃ k, g.board (food_sample g k) = 0) →
        ∃ fuel pr, random_food_pos fuel g = .ok pr) := by
  constructor
  · intro hfull fuel
    exact random_food_pos_full_aux fuel g hh hw hfull
  · rintro ⟨k, hk⟩
    obtain ⟨pr, hpr⟩ := random_food_pos_finds_aux k g hk
    exact ⟨k + 1, pr, hpr⟩

/-- C6 witness: on a fully occupied 7×7 board the relocation loop exhausts
a concrete fuel budget. -/
theorem random_food_pos_termination_witness :
    random_food_pos 3 wall_game = .error .fuelOut :=
  (random_food_pos_termination wall_game (by decide) (by decide)).1
    (fun _ _ _ => Nat.one_ne_zero) 3

/-- C7: two runs from identical states under identical input sequences and
randomness streams agree after every step. -/
theorem run_deterministic (fuel : Nat) (inputs : List (Option Direction))
    (g1 g2 : SnakeGame) (h : g1 = g2) :
    ∀ n, run fuel (inputs.take n) g1 = run fuel (inputs.take n) g2 := by
  subst h
  intro n
  rfl

/-- C7 witness: a concrete pair of identical runs agrees after one step. -/
theorem run_deterministic_witness :
    run 1 ([some .RIGHT].take 1) demo_game = run 1 ([some .RIGHT].take 1) demo_game :=
  run_deterministic 1 [some .RIGHT] demo_game demo_game rfl 1

theorem gen_range_zero (r : Rng) (n : Nat) :
    gen_range r 0 n = (r.stream r.cursor % n, ⟨r.stream, r.cursor + 1⟩) := by
  simp [gen_range]

theorem tick_quiet (fuel : Nat) (input : Option Direction) (g : SnakeGame)
    (h1 : (pre_collision_state input g).board (pre_collision_state input g).snake_pos = 0)
    (h2 : (pre_collision_state input g).snake_pos ≠ (pre_collision_state input g).food_pos) :
    tick fuel input g = .ok (write_head (pre_collision_state input g)) := by
  rw [tick_eq]
  unfold pre_collision_state at h1 h2 ⊢
  generalize move_snake_head (decay_board (apply_input input g)) = g3 at h1 h2 ⊢
  unfold check_snake_collision
  rw [if_neg (by simp [h1]), if_neg h2]
  rfl

theorem random_pos_fst (g : SnakeGame) : (random_pos g).1 = food_sample g 0 := by
  rw [random_pos_eq]

theorem tick_food_hit (n : Nat) (input : Option Direction) (g : SnakeGame)
    (h1 : (pre_collision_state input g).board (pre_collision_state input g).snake_pos = 0)
    (h2 : (pre_collision_state input g).snake_pos = (pre_collision_state input g).food_pos)
    (h3 : (pre_collision_state input g).board (food_sample (pre_collision_state input g) 0) = 0) :
    tick (n + 1) input g =
      .ok (write_head
        { pre_collision_state input g with
            snake_lvl := (pre_collision_state input g).snake_lvl + 1
            food_pos := food_sample (pre_collision_state input g) 0
            rng := ⟨(pre_collision_state input g).rng.stream,
              (pre_collision_state input g).rng.cursor + 1 + 1⟩ }) := by
  rw [tick_eq]
  unfold pre_collision_state at h1 h2 h3 ⊢
  generalize move_snake_head (decay_board (apply_input input g)) = g3 at h1 h2 h3 ⊢
  unfold check_snake_collision
  rw [if_neg (by simp [h1]), if_pos h2]
  simp only [food_collided]
  have h3' : ({ g3 with snake_lvl := g3.snake_lvl + 1 } : SnakeGame).board
      (random_pos { g3 with snake_lvl := g3.snake_lvl + 1 }).1 = 0 := by
    rw [random_pos_fst]
    exact h3
  have hfirst : random_food_pos (n + 1) { g3 with snake_lvl := g3.snake_lvl + 1 } =
      .ok (food_sample g3 0, ⟨g3.rng.stream, g3.rng.cursor + 1 + 1⟩) := by
    simp only [random_food_pos]
    rw [if_pos h3', random_pos_eq]
    rfl
  rw [hfirst]
  rfl

/-- C8 counterexample: the scenario does not hold for every randomness
source. With the stream that always draws 3, the initial food lands on the
centre `(3,3)`, the seed tick eats it, and construction ends with the head
cell holding 4 (not 3) and growth level 4 (not 3). -/
theorem with_rng_7x7_counterexample :
    (ok_state (with_rng 2 7 7 3 const3_rng)).map
        (fun g => (g.snake_pos, g.board (3, 3), g.snake_lvl)) = some ((3, 3), 4, 4) := by
  decide

/-- C8 amended: for width=7, height=7, starting_length=3 and any randomness
source whose initial food draw is none of `(3,3)`, `(3,4)`, `(3,5)`: after
construction the head is at `(3,3)`, that cell holds 3 and every other cell
is 0; after `tick RIGHT` the head is at `(3,4)` with `(3,4)=3`, `(3,3)=2`;
after a second `tick RIGHT` the head is at `(3,5)` with `(3,5)=3`,
`(3,4)=2`, `(3,3)=1`. -/
theorem with_rng_7x7_scenario (rng : Rng) (fuel : Nat)
    (h3 : (rng.stream rng.cursor % 7, rng.stream (rng.cursor + 1) % 7) ≠ (3, 3))
    (h4 : (rng.stream rng.cursor % 7, rng.stream (rng.cursor + 1) % 7) ≠ (3, 4))
    (h5 : (rng.stream rng.cursor % 7, rng.stream (rng.cursor + 1) % 7) ≠ (3, 5)) :
    ∃ g0 g1 g2,
      with_rng fuel 7 7 3 rng = .ok g0 ∧
      g0.snake_pos = (3, 3) ∧ g0.board (3, 3) = 3 ∧ g0.snake_lvl = 3 ∧
      (∀ p : Nat × Nat, p ≠ (3, 3) → g0.board p = 0) ∧
      tick fuel (some .RIGHT) g0 = .ok g1 ∧
      g1.snake_pos = (3, 4) ∧ g1.board (3, 4) = 3 ∧ g1.board (3, 3) = 2 ∧
      tick fuel (some .RIGHT) g1 = .ok g2 ∧
      g2.snake_pos = (3, 5) ∧ g2.board (3, 5) = 3 ∧ g2.board (3, 4) = 2 ∧
        g2.board (3, 3) = 1 := by
  refine ⟨scenario_g0 (rng.stream rng.cursor % 7, rng.stream (rng.cursor + 1) % 7)
      ⟨rng.stream, rng.cursor + 1 + 1⟩,
    scenario_g1 (rng.stream rng.cursor % 7, rng.stream (rng.cursor + 1) % 7)
      ⟨rng.stream, rng.cursor + 1 + 1⟩,
    scenario_g2 (rng.stream rng.cursor % 7, rng.stream (rng.cursor + 1) % 7)
      ⟨rng.stream, rng.cursor + 1 + 1⟩,
    ?_, rfl, rfl, rfl, ?_, ?_, rfl, rfl, rfl, ?_, rfl, rfl, rfl, rfl⟩
  · simp only [with_rng, gen_range_zero]
    exact tick_quiet fuel none _ rfl (Ne.symm h3)
  · intro p hp
    show (if p = (3, 3) then 3 else 0 - 1) = 0
    rw [if_neg hp]
  · exact tick_quiet fuel (some .RIGHT) _ rfl (Ne.symm h4)
  · exact tick_quiet fuel (some .RIGHT) _ rfl (Ne.symm h5)

/-- C8 witness: the amended scenario at the all-zero stream, whose initial
food draw is `(0,0)`. -/
theorem with_rng_7x7_scenario_witness :
    ∃ g0 g1 g2,
      with_rng 1 7 7 3 const0_rng = .ok g0 ∧
      g0.snake_pos = (3, 3) ∧ g0.board (3, 3) = 3 ∧ g0.snake_lvl = 3 ∧
      (∀ p : Nat × Nat, p ≠ (3, 3) → g0.board p = 0) ∧
      tick 1 (some .RIGHT) g0 = .ok g1 ∧
      g1.snake_pos = (3, 4) ∧ g1.board (3, 4) = 3 ∧ g1.board (3, 3) = 2 ∧
      tick 1 (some .RIGHT) g1 = .ok g2 ∧
      g2.snake_pos = (3, 5) ∧ g2.board (3, 5) = 3 ∧ g2.board (3, 4) = 2 ∧
        g2.board (3, 3) = 1 :=
  with_rng_7x7_scenario const0_rng 1 (by decide) (by decide) (by decide)

/-- C9: the initial food draw ranges over the whole board, the head cell
included. When the first two draws select the centre `(height/2, width/2)`,
the seed tick inside construction eats the food: construction succeeds with
growth level `starting_length + 1` and the food relocated to the position
given by the next two draws. For every other first draw, construction
returns growth level exactly `starting_length` with the food at the drawn
position. -/
theorem with_rng_center_food (board_width board_height starting_length : Nat) (rng : Rng)
    (fuel : Nat) (hf : 1 ≤ fuel) :
    ((rng.stream rng.cursor % board_height, rng.stream (rng.cursor + 1) % board_width) =
        (board_height / 2, board_width / 2) →
      ∃ g, with_rng fuel board_width board_height starting_length rng = .ok g ∧
        g.snake_lvl = starting_length + 1 ∧
        g.food_pos = (rng.stream (rng.cursor + 2) % board_height,
          rng.stream (rng.cursor + 3) % board_width)) ∧
    ((rng.stream rng.cursor % board_height, rng.stream (rng.cursor + 1) % board_width) ≠
        (board_height / 2, board_width / 2) →
      ∃ g, with_rng fuel board_width board_height starting_length rng = .ok g ∧
        g.snake_lvl = starting_length ∧
        g.food_pos = (rng.stream rng.cursor % board_height,
          rng.stream (rng.cursor + 1) % board_width)) := by
  obtain ⟨n, rfl⟩ : ∃ n, fuel = n + 1 := ⟨fuel - 1, by omega⟩
  constructor
  · intro heq
    simp only [with_rng, gen_range_zero]
    exact ⟨_, tick_food_hit n none _ rfl heq.symm rfl, rfl, rfl⟩
  · intro hne
    simp only [with_rng, gen_range_zero]
    exact ⟨_, tick_quiet (n + 1) none _ rfl (Ne.symm hne), rfl, rfl⟩

/-- C9 witness: with the constant-3 stream on a 7×7 board the first draw is
the centre `(3,3)`, so construction returns growth level 4 and relocated
food. -/
theorem with_rng_center_food_witness :
    ∃ g, with_rng 2 7 7 3 const3_rng = .ok g ∧ g.snake_lvl = 3 + 1 ∧
      g.food_pos = (const3_rng.stream (const3_rng.cursor + 2) % 7,
        const3_rng.stream (const3_rng.cursor + 3) % 7) :=
  (with_rng_center_food 7 7 3 const3_rng 2 (by decide)).1 (by decide)

/-- C10: food relocation runs before the growth value is written to the
head cell, so the freshly vacated head cell can be chosen as the new food
position. With the alternating 3,4 stream on 7×7 with starting length 3,
construction puts the food at `(3,4)`; one `tick RIGHT` eats it and the
relocation picks `(3,4)` again, leaving the tick with food position equal
to both the head position and the old food position — on a cell whose
value ends up nonzero (namely 4). -/
theorem tick_food_on_head :
    (ok_state (with_rng 1 7 7 3 alt34_rng)).map (fun g => g.food_pos) = some (3, 4) ∧
      (ok_state ((with_rng 1 7 7 3 alt34_rng).bind (tick 1 (some .RIGHT)))).map
          (fun g => (g.snake_pos, g.food_pos, g.snake_lvl, g.board g.snake_pos)) =
        some ((3, 4), (3, 4), 4, 4) := by
  decide
